import Mathlib

/-!
Verification of the cozo C foreign-function boundary (`cozo-lib-c`).

The repository ships the boundary's C header `src/cozo-lib-c/cozo_c.h`,
which declares the four operations `cozo_open_db`, `cozo_close_db`,
`cozo_run_query` and `cozo_free_str`.  The declarations themselves are
embedded below as data (`CDecl`); the behaviour of the handle registry and
execution gateway behind them is not part of the sources, so it is
modelled from the specification (each such definition is marked
`Modelled from the spec:`), with the query engine kept as an abstract
collaborator.
-/

/- ### Embedding of the C header declarations (src/cozo-lib-c/cozo_c.h) -/

/-- The C types appearing in the header `cozo_c.h` (plus `bool *`, the type
an output flag parameter would have). -/
inductive CType where
  | int32
  | boolTy
  | voidTy
  | ptrChar
  | ptrConstChar
  | ptrInt32
  | ptrBool
  deriving DecidableEq

/-- One formal parameter of a C declaration: its name and type. -/
structure CParam where
  pname : String
  ptype : CType
  deriving DecidableEq

/-- A C function declaration: name, return type and parameter list. -/
structure CDecl where
  cname : String
  ret : CType
  params : List CParam
  deriving DecidableEq

/-- The declaration `char *cozo_open_db(const char *path, int32_t *db_id);`
at src/cozo-lib-c/cozo_c.h line 27. -/
def cozo_open_db_decl : CDecl :=
  { cname := "cozo_open_db", ret := .ptrChar,
    params := [⟨"path", .ptrConstChar⟩, ⟨"db_id", .ptrInt32⟩] }

/-- The declaration `bool cozo_close_db(int32_t id);`
at src/cozo-lib-c/cozo_c.h line 37. -/
def cozo_close_db_decl : CDecl :=
  { cname := "cozo_close_db", ret := .boolTy,
    params := [⟨"id", .int32⟩] }

/-- The declaration
`char *cozo_run_query(int32_t db_id, const char *script_raw, const char *params_raw);`
at src/cozo-lib-c/cozo_c.h line 54. -/
def cozo_run_query_decl : CDecl :=
  { cname := "cozo_run_query", ret := .ptrChar,
    params := [⟨"db_id", .int32⟩, ⟨"script_raw", .ptrConstChar⟩,
               ⟨"params_raw", .ptrConstChar⟩] }

/-- The declaration `void cozo_free_str(char *s);`
at src/cozo-lib-c/cozo_c.h line 62. -/
def cozo_free_str_decl : CDecl :=
  { cname := "cozo_free_str", ret := .voidTy,
    params := [⟨"s", .ptrChar⟩] }

/-- The parameters that the doc comment of `cozo_run_query`
(src/cozo-lib-c/cozo_c.h lines 42-49) documents: `db_id`, `script_raw`,
`params_raw`, and an `errored` output that "will point to false if the query
is successful, true if an error occurred", i.e. a `bool *` parameter. -/
def cozo_run_query_doc_params : List CParam :=
  [⟨"db_id", .int32⟩, ⟨"script_raw", .ptrConstChar⟩,
   ⟨"params_raw", .ptrConstChar⟩, ⟨"errored", .ptrBool⟩]

/- ### JSON values and parsing of the params argument -/

/-- Modelled from the spec: JSON values, as exchanged across the boundary
(`params` must be a JSON object, §3).  Numbers are restricted to integers,
which is enough for every property below. -/
inductive Json where
  | null
  | bool (b : Bool)
  | num (n : Int)
  | str (s : String)
  | arr (xs : List Json)
  | obj (kvs : List (String × Json))

/-- Whether a JSON value is an object (a map), the only shape `params`
may take at the top level. -/
def Json.isObj : Json → Bool
  | .obj _ => true
  | _ => false

/-- Drop leading JSON whitespace. -/
def skipWs : List Char → List Char
  | [] => []
  | c :: cs => if c = ' ' || c = '\n' || c = '\t' || c = '\r' then skipWs cs else c :: cs

/-- Decode one character of a JSON string escape sequence. -/
def unescape (c : Char) : Option Char :=
  if c = '"' then some '"'
  else if c = '\\' then some '\\'
  else if c = '/' then some '/'
  else if c = 'n' then some '\n'
  else if c = 't' then some '\t'
  else if c = 'r' then some '\r'
  else none

/-- Parse the body of a JSON string literal, after the opening quote,
returning the decoded characters and the remaining input. -/
def parseStrChars : List Char → Option (List Char × List Char)
  | [] => none
  | c :: cs =>
    if c = '"' then some ([], cs)
    else if c = '\\' then
      match cs with
      | [] => none
      | e :: cs' =>
        match unescape e, parseStrChars cs' with
        | some ec, some (s, r) => some (ec :: s, r)
        | _, _ => none
    else
      match parseStrChars cs with
      | some (s, r) => some (c :: s, r)
      | none => none

/-- Accumulate a run of decimal digits. -/
def digitsAux : List Char → Nat → Nat × List Char
  | [], acc => (acc, [])
  | c :: cs, acc =>
    if c.isDigit then digitsAux cs (10 * acc + (c.toNat - '0'.toNat)) else (acc, c :: cs)

/-- Parse at least one decimal digit. -/
def parseDigits (cs : List Char) : Option (Nat × List Char) :=
  match cs with
  | c :: _ => if c.isDigit then some (digitsAux cs 0) else none
  | [] => none

/-- Parse a JSON integer, with an optional leading minus sign. -/
def parseNum (cs : List Char) : Option (Json × List Char) :=
  match cs with
  | '-' :: rest =>
    match parseDigits rest with
    | some (n, r) => some (.num (-(n : Int)), r)
    | none => none
  | _ =>
    match parseDigits cs with
    | some (n, r) => some (.num (n : Int), r)
    | none => none

mutual

/-- Parse one JSON value; `fuel` bounds the recursion depth. -/
def parseValue : Nat → List Char → Option (Json × List Char)
  | 0, _ => none
  | fuel + 1, cs =>
    match skipWs cs with
    | 'n' :: 'u' :: 'l' :: 'l' :: rest => some (.null, rest)
    | 't' :: 'r' :: 'u' :: 'e' :: rest => some (.bool true, rest)
    | 'f' :: 'a' :: 'l' :: 's' :: 'e' :: rest => some (.bool false, rest)
    | '"' :: rest =>
      match parseStrChars rest with
      | some (s, r) => some (.str (String.mk s), r)
      | none => none
    | '[' :: rest =>
      match skipWs rest with
      | ']' :: rest' => some (.arr [], rest')
      | rest' =>
        match parseValue fuel rest' with
        | some (v, r) =>
          match parseArrTail fuel r with
          | some (vs, r') => some (.arr (v :: vs), r')
          | none => none
        | none => none
    | '\x7b' :: rest =>
      match skipWs rest with
      | '\x7d' :: rest' => some (.obj [], rest')
      | rest' =>
        match parseMember fuel rest' with
        | some (kv, r) =>
          match parseObjTail fuel r with
          | some (kvs, r') => some (.obj (kv :: kvs), r')
          | none => none
        | none => none
    | rest => parseNum rest

/-- Parse one `"key": value` member of a JSON object. -/
def parseMember : Nat → List Char → Option ((String × Json) × List Char)
  | 0, _ => none
  | fuel + 1, cs =>
    match skipWs cs with
    | '"' :: rest =>
      match parseStrChars rest with
      | some (k, r) =>
        match skipWs r with
        | ':' :: r' =>
          match parseValue fuel r' with
          | some (v, r'') => some ((String.mk k, v), r'')
          | none => none
        | _ => none
      | none => none
    | _ => none

/-- Parse the rest of a JSON array after its first element. -/
def parseArrTail : Nat → List Char → Option (List Json × List Char)
  | 0, _ => none
  | fuel + 1, cs =>
    match skipWs cs with
    | ']' :: rest => some ([], rest)
    | ',' :: rest =>
      match parseValue fuel rest with
      | some (v, r) =>
        match parseArrTail fuel r with
        | some (vs, r') => some (v :: vs, r')
        | none => none
      | none => none
    | _ => none

/-- Parse the rest of a JSON object after its first member. -/
def parseObjTail : Nat → List Char → Option (List (String × Json) × List Char)
  | 0, _ => none
  | fuel + 1, cs =>
    match skipWs cs with
    | '\x7d' :: rest => some ([], rest)
    | ',' :: rest =>
      match parseMember fuel rest with
      | some (kv, r) =>
        match parseObjTail fuel r with
        | some (kvs, r') => some (kv :: kvs, r')
        | none => none
      | none => none
    | _ => none

end

/-- Parse a whole string as one JSON value (with nothing but whitespace
after it). -/
def parseJson (s : String) : Option Json :=
  match parseValue (s.length + 1) s.data with
  | some (v, rest) => if skipWs rest = [] then some v else none
  | none => none

/-- Escape one character for JSON string output. -/
def escChar (c : Char) : List Char :=
  if c = '"' then ['\\', '"']
  else if c = '\\' then ['\\', '\\']
  else if c = '\n' then ['\\', 'n']
  else if c = '\t' then ['\\', 't']
  else if c = '\r' then ['\\', 'r']
  else [c]

/-- Escape a string for JSON output. -/
def escString (s : String) : String :=
  String.mk (List.flatten (s.data.map escChar))

/-- Serialize a JSON value to its textual form (step 4 of the gateway:
on success the result value is serialized to a JSON string). -/
def serialize : Json → String
  | .null => "null"
  | .bool true => "true"
  | .bool false => "false"
  | .num n => toString n
  | .str s => "\"" ++ escString s ++ "\""
  | .arr xs => "[" ++ String.intercalate "," (xs.attach.map (fun e => serialize e.1)) ++ "]"
  | .obj kvs =>
    "\x7b" ++ String.intercalate ","
      (kvs.attach.map (fun kv => "\"" ++ escString kv.1.1 ++ "\":" ++ serialize kv.1.2)) ++
      "\x7d"
decreasing_by
  · have := List.sizeOf_lt_of_mem e.2
    simp only [Json.arr.sizeOf_spec]
    omega
  · have h1 := List.sizeOf_lt_of_mem kv.2
    rcases kv with ⟨⟨k, v⟩, hk⟩
    simp only [Prod.mk.sizeOf_spec] at h1
    simp only [Json.obj.sizeOf_spec]
    omega

/- ### The handle registry and execution gateway, modelled from the spec -/

/-- Modelled from the spec: the query engine is the external collaborator
behind the gateway — `execute(script, params) -> Result<JsonValue, String>`
(spec §1) together with instance initialization at a path (spec §4.1,
`open` delegates initialization to the query engine layer).  Its code is not
part of this boundary layer, so it is kept abstract as a pair of functions. -/
structure Engine where
  init : String → Except String Unit
  execute : String → List (String × Json) → Except String Json

/-- Modelled from the spec: the process-wide handle registry (spec §3, §4.1);
the implementation behind `cozo_c.h` is not under the sources, only the
header is.  `openDbs` maps each open handle to its database instance
(represented by the path it was opened at); `nextId` is the monotonic
allocation counter. -/
structure RegistryState where
  nextId : Int
  openDbs : List (Int × String)
  deriving DecidableEq

/-- The registry state of a fresh process: no database opened yet, counter
at zero. -/
def initState : RegistryState := { nextId := 0, openDbs := [] }

/-- A handle is valid for execution iff it currently appears open in the
registry (spec §3, invariants). -/
def isOpen (st : RegistryState) (id : Int) : Bool :=
  st.openDbs.any (fun e => e.1 == id)

/-- The outcome of `cozo_open_db` at the boundary: the returned error buffer
(`none` is the C null pointer), the value written through the `db_id` output
parameter (`none` when it is left unwritten), and the registry state after
the call. -/
structure OpenResult where
  err : Option String
  dbId : Option Int
  state : RegistryState

/-- Modelled from the spec: the implementation of `cozo_open_db` behind the
declaration at cozo_c.h line 27 (spec §4.1): initialization of an instance
at the path is delegated to the engine; on success a fresh handle (the
monotonic counter's value) is allocated, the entry inserted, null returned;
on failure the error message is returned and no handle is allocated. -/
def cozo_open_db (eng : Engine) (st : RegistryState) (path : String) : OpenResult :=
  match eng.init path with
  | .error msg => { err := some msg, dbId := none, state := st }
  | .ok _ =>
    { err := none, dbId := some st.nextId,
      state := { nextId := st.nextId + 1, openDbs := (st.nextId, path) :: st.openDbs } }

/-- Modelled from the spec: the implementation of `cozo_close_db` behind the
declaration at cozo_c.h line 37 (spec §4.1): returns true and releases the
instance if the handle is currently open, false if already closed or never
issued; any handle not found is treated as already closed. -/
def cozo_close_db (st : RegistryState) (id : Int) : Bool × RegistryState :=
  if isOpen st id then
    (true, { st with openDbs := st.openDbs.filter (fun e => !(e.1 == id)) })
  else
    (false, st)

/-- What `cozo_run_query` hands back across the boundary: the returned
buffer (always a string, never null), the errored flag, and a ghost flag
recording whether the query engine was invoked during the call. -/
structure RunResult where
  buffer : String
  errored : Bool
  engineInvoked : Bool
  deriving DecidableEq

/-- The failure message when the params string is not valid JSON. -/
def paramsParseErrMsg : String := "params argument is not valid JSON"

/-- The failure message when the params JSON is not an object. -/
def paramsNotObjectMsg : String := "params argument is not a JSON map"

/-- The failure message when the handle does not name an open database. -/
def dbNotFoundMsg : String := "database not found"

/-- Modelled from the spec: the implementation of `cozo_run_query` behind
the declaration at cozo_c.h line 54, following §4.2 step by step: parse the
params as a JSON object (failure or a non-object is a Failure, engine never
invoked); resolve the handle (invalid is a "database not found" Failure, no
engine invocation); invoke the engine's execute; serialize the outcome.
The registry state after the call is returned alongside the result. -/
def cozo_run_query (eng : Engine) (st : RegistryState) (dbId : Int)
    (scriptRaw : String) (paramsRaw : String) : RunResult × RegistryState :=
  match parseJson paramsRaw with
  | none =>
    ({ buffer := paramsParseErrMsg, errored := true, engineInvoked := false }, st)
  | some (.obj kvs) =>
    if isOpen st dbId then
      match eng.execute scriptRaw kvs with
      | .ok v =>
        ({ buffer := serialize v, errored := false, engineInvoked := true }, st)
      | .error msg =>
        ({ buffer := msg, errored := true, engineInvoked := true }, st)
    else
      ({ buffer := dbNotFoundMsg, errored := true, engineInvoked := false }, st)
  | some _ =>
    ({ buffer := paramsNotObjectMsg, errored := true, engineInvoked := false }, st)

/-- Modelled from the spec: the boundary memory contract behind
`cozo_free_str` (cozo_c.h line 62, spec §4.3): boundary buffers are
identified abstractly and the gateway-side arena is the finite set of live
buffers; `none` stands for the C null pointer, accepted as a no-op, and
releasing a live buffer removes it from the arena. -/
def cozo_free_str (live : List Nat) (s : Option Nat) : List Nat :=
  match s with
  | none => live
  | some p => live.filter (fun q => !(q == p))

/-- A concrete engine for exercising the model: initialization always
succeeds and every query returns JSON null. -/
def okEngine : Engine :=
  { init := fun _ => .ok (), execute := fun _ _ => .ok .null }

/-- A concrete engine for exercising the model: initialization always
fails. -/
def badEngine : Engine :=
  { init := fun p => .error ("cannot open " ++ p),
    execute := fun _ _ => .error "no database" }

/-- The registry states reachable through the boundary operations, starting
from a fresh process. -/
inductive Reachable (eng : Engine) : RegistryState → Prop where
  | init : Reachable eng initState
  | openStep {st : RegistryState} (path : String) :
      Reachable eng st → Reachable eng (cozo_open_db eng st path).state
  | closeStep {st : RegistryState} (id : Int) :
      Reachable eng st → Reachable eng (cozo_close_db st id).2
  | runStep {st : RegistryState} (id : Int) (script params : String) :
      Reachable eng st → Reachable eng (cozo_run_query eng st id script params).2

/-- The registry invariant: the counter is non-negative, open handles are
pairwise distinct, and every open handle was allocated below the counter. -/
def RegInv (st : RegistryState) : Prop :=
  0 ≤ st.nextId ∧
  (st.openDbs.map Prod.fst).Nodup ∧
  ∀ e ∈ st.openDbs, 0 ≤ e.1 ∧ e.1 < st.nextId

/- ### Helper lemmas -/

/-- `isOpen` unfolded to an existential over registry entries. -/
theorem isOpen_eq_true_iff (st : RegistryState) (id : Int) :
    isOpen st id = true ↔ ∃ e ∈ st.openDbs, e.1 = id := by
  simp [isOpen, List.any_eq_true]

/-- A run never changes the registry state. -/
theorem run_query_state_fixed (eng : Engine) (st : RegistryState) (id : Int)
    (script p : String) : (cozo_run_query eng st id script p).2 = st := by
  unfold cozo_run_query
  rcases parseJson p with _ | j
  · rfl
  · cases j with
    | obj kvs =>
      dsimp only
      split
      · rcases eng.execute script kvs with v | m <;> rfl
      · rfl
    | _ => rfl

/-- A run against a handle that is not open reports an error. -/
theorem run_errored_of_not_open (eng : Engine) (st : RegistryState) (id : Int)
    (script p : String) (h : isOpen st id = false) :
    (cozo_run_query eng st id script p).1.errored = true := by
  unfold cozo_run_query
  rcases parseJson p with _ | j
  · rfl
  · cases j with
    | obj kvs => simp [h]
    | _ => rfl

/-- Every reachable registry state satisfies the registry invariant. -/
theorem reachable_regInv {eng : Engine} {st : RegistryState}
    (h : Reachable eng st) : RegInv st := by
  induction h with
  | init => exact ⟨le_refl 0, List.nodup_nil, by simp [initState]⟩
  | openStep path hr ih =>
    obtain ⟨h0, hnd, hbd⟩ := ih
    rename_i st'
    cases hinit : eng.init path with
    | error e =>
      simp only [cozo_open_db, hinit]
      exact ⟨h0, hnd, hbd⟩
    | ok u =>
      cases u
      simp only [cozo_open_db, hinit, RegInv]
      refine ⟨by omega, ?_, ?_⟩
      · simp only [List.map_cons, List.nodup_cons]
        refine ⟨fun hmem => ?_, hnd⟩
        obtain ⟨e, he, heq⟩ := List.mem_map.mp hmem
        have := (hbd e he).2
        omega
      · intro e he
        rcases List.mem_cons.mp he with heq | he'
        · subst heq; exact ⟨h0, by omega⟩
        · have := hbd e he'
          exact ⟨this.1, by omega⟩
  | closeStep id hr ih =>
    obtain ⟨h0, hnd, hbd⟩ := ih
    unfold cozo_close_db
    split
    · refine ⟨h0, ?_, ?_⟩
      · exact hnd.sublist ((List.filter_sublist _).map Prod.fst)
      · intro e he
        exact hbd e (List.mem_of_mem_filter he)
    · exact ⟨h0, hnd, hbd⟩
  | runStep id script params hr ih =>
    rwa [run_query_state_fixed]

/- ### Claim theorems -/

/-- C1: the spec and the header's own doc comment (cozo_c.h lines 48-49)
describe a boolean `errored` output for `cozo_run_query`, but the declared C
signature (cozo_c.h line 54) has no such output: its parameters are exactly
`int32_t db_id, const char *script_raw, const char *params_raw` — none named
`errored` and none of type `bool *` — and it returns `char *`.  The
declaration thus contradicts the documented contract the claim states. -/
theorem run_query_decl_has_no_errored_output :
    cozo_run_query_decl.params.map CParam.ptype
        = [CType.int32, CType.ptrConstChar, CType.ptrConstChar] ∧
    cozo_run_query_decl.params.all
        (fun p => !(p.pname == "errored") && !(p.ptype == CType.ptrBool)) = true ∧
    cozo_run_query_decl.ret = CType.ptrChar ∧
    cozo_run_query_doc_params.any
        (fun p => p.pname == "errored" && p.ptype == CType.ptrBool) = true := by
  decide

/-- C2: on success `cozo_open_db` returns a null error buffer and writes a
handle that is open in the resulting registry state; on failure it returns a
non-null error buffer, leaves the handle output unwritten and the registry
unchanged; it never returns a null error together with an invalid handle. -/
theorem open_db_success_failure_contract (eng : Engine) (st : RegistryState)
    (path : String) :
    ((cozo_open_db eng st path).err = none →
      ∃ h, (cozo_open_db eng st path).dbId = some h ∧
        isOpen (cozo_open_db eng st path).state h = true) ∧
    ((cozo_open_db eng st path).err ≠ none →
      (cozo_open_db eng st path).dbId = none ∧
      (cozo_open_db eng st path).state = st) := by
  cases hinit : eng.init path with
  | error e =>
    have heq : cozo_open_db eng st path
        = { err := some e, dbId := none, state := st } := by
      unfold cozo_open_db
      rw [hinit]
    rw [heq]
    exact ⟨fun hc => Option.noConfusion hc, fun _ => ⟨rfl, rfl⟩⟩
  | ok u =>
    cases u
    have heq : cozo_open_db eng st path
        = { err := none, dbId := some st.nextId,
            state := { nextId := st.nextId + 1,
                       openDbs := (st.nextId, path) :: st.openDbs } } := by
      unfold cozo_open_db
      rw [hinit]
    rw [heq]
    refine ⟨fun _ => ⟨st.nextId, rfl, ?_⟩, fun hc => absurd rfl hc⟩
    simp [isOpen]

/-- Witness for C2 at concrete inputs: a successful open from the initial
state writes an open handle, and a failing open writes nothing and leaves
the registry unchanged. -/
theorem open_db_contract_at_concrete :
    (∃ h, (cozo_open_db okEngine initState "db").dbId = some h ∧
      isOpen (cozo_open_db okEngine initState "db").state h = true) ∧
    ((cozo_open_db badEngine initState "db").dbId = none ∧
      (cozo_open_db badEngine initState "db").state = initState) :=
  ⟨(open_db_success_failure_contract okEngine initState "db").1 rfl,
   (open_db_success_failure_contract badEngine initState "db").2 (by decide)⟩

/-- C3: `cozo_close_db` returns true exactly when the handle is currently
open (and then removes it from the registry), false when already closed or
never issued, so closing the same handle twice returns true then false. -/
theorem close_db_idempotent_contract (st : RegistryState) (id : Int) :
    (cozo_close_db st id).1 = isOpen st id ∧
    isOpen (cozo_close_db st id).2 id = false ∧
    (cozo_close_db (cozo_close_db st id).2 id).1 = false := by
  have hkey : ∀ st' : RegistryState, isOpen st' id = false →
      cozo_close_db st' id = (false, st') := by
    intro st' h
    unfold cozo_close_db
    simp [h]
  cases ho : isOpen st id with
  | false =>
    have h1 : cozo_close_db st id = (false, st) := hkey st ho
    refine ⟨?_, ?_, ?_⟩
    · rw [h1]
    · rw [h1]
      exact ho
    · rw [h1]
      show (cozo_close_db st id).1 = false
      rw [h1]
  | true =>
    have hclosed :
        isOpen { st with openDbs := st.openDbs.filter (fun e => !(e.1 == id)) } id
          = false := by
      rw [Bool.eq_false_iff]
      intro hc
      rw [isOpen_eq_true_iff] at hc
      obtain ⟨e, he, heq⟩ := hc
      have h2 := (List.mem_filter.mp he).2
      simp [heq] at h2
    have h1 : cozo_close_db st id =
        (true, { st with openDbs := st.openDbs.filter (fun e => !(e.1 == id)) }) := by
      unfold cozo_close_db
      simp [ho]
    refine ⟨?_, ?_, ?_⟩
    · rw [h1]
    · rw [h1]
      exact hclosed
    · rw [h1]
      show (cozo_close_db
          { st with openDbs := st.openDbs.filter (fun e => !(e.1 == id)) } id).1 = false
      rw [hkey _ hclosed]

/-- C4: if the params string does not parse as JSON, or parses to a value
that is not an object, `cozo_run_query` fails with one of the two
parameter-parsing messages and the engine is never invoked. -/
theorem run_query_bad_params_failure (eng : Engine) (st : RegistryState)
    (id : Int) (script p : String)
    (h : parseJson p = none ∨ ∃ j, parseJson p = some j ∧ j.isObj = false) :
    (cozo_run_query eng st id script p).1.errored = true ∧
    (cozo_run_query eng st id script p).1.engineInvoked = false ∧
    ((cozo_run_query eng st id script p).1.buffer = paramsParseErrMsg ∨
     (cozo_run_query eng st id script p).1.buffer = paramsNotObjectMsg) := by
  rcases h with hnone | ⟨j, hj, hno⟩
  · unfold cozo_run_query
    rw [hnone]
    exact ⟨rfl, rfl, Or.inl rfl⟩
  · unfold cozo_run_query
    rw [hj]
    cases j with
    | obj kvs => simp [Json.isObj] at hno
    | null => exact ⟨rfl, rfl, Or.inr rfl⟩
    | bool b => exact ⟨rfl, rfl, Or.inr rfl⟩
    | num n => exact ⟨rfl, rfl, Or.inr rfl⟩
    | str s => exact ⟨rfl, rfl, Or.inr rfl⟩
    | arr xs => exact ⟨rfl, rfl, Or.inr rfl⟩

/-- The registry state after one successful open from a fresh process. -/
def stOne : RegistryState := (cozo_open_db okEngine initState "db").state

/-- Witness for C4 at concrete inputs: "not-json" fails the JSON parse and
"[1]" parses to a non-object; both make a run on an open handle fail
without invoking the engine. -/
theorem run_query_bad_params_at_concrete :
    ((cozo_run_query okEngine stOne 0 "?" "not-json").1.errored = true ∧
     (cozo_run_query okEngine stOne 0 "?" "not-json").1.engineInvoked = false ∧
     ((cozo_run_query okEngine stOne 0 "?" "not-json").1.buffer = paramsParseErrMsg ∨
      (cozo_run_query okEngine stOne 0 "?" "not-json").1.buffer = paramsNotObjectMsg)) ∧
    ((cozo_run_query okEngine stOne 0 "?" "[1]").1.errored = true ∧
     (cozo_run_query okEngine stOne 0 "?" "[1]").1.engineInvoked = false ∧
     ((cozo_run_query okEngine stOne 0 "?" "[1]").1.buffer = paramsParseErrMsg ∨
      (cozo_run_query okEngine stOne 0 "?" "[1]").1.buffer = paramsNotObjectMsg)) :=
  ⟨run_query_bad_params_failure okEngine stOne 0 "?" "not-json" (Or.inl rfl),
   run_query_bad_params_failure okEngine stOne 0 "?" "[1]"
     (Or.inr ⟨Json.arr [Json.num 1], rfl, rfl⟩)⟩

/-- C5 counterexample: with handle 99 not open and params "not-json", the
run fails, but with the parameter-parsing message, not the
database-not-found message the claim requires for every script and params
(step 1 of the gateway precedes handle resolution). -/
theorem run_query_unknown_handle_message_cex :
    isOpen initState 99 = false ∧
    (cozo_run_query okEngine initState 99 "anything" "not-json").1.errored = true ∧
    (cozo_run_query okEngine initState 99 "anything" "not-json").1.buffer
        = paramsParseErrMsg ∧
    paramsParseErrMsg ≠ dbNotFoundMsg := by
  refine ⟨rfl, rfl, rfl, ?_⟩
  decide

/-- C5 (amended): a run against a handle that is not open always fails and
never invokes the engine, and whenever the params do parse as a JSON object
the buffer is the database-not-found message. -/
theorem run_query_unknown_handle_failure (eng : Engine) (st : RegistryState)
    (id : Int) (script p : String) (h : isOpen st id = false) :
    (cozo_run_query eng st id script p).1.errored = true ∧
    (cozo_run_query eng st id script p).1.engineInvoked = false ∧
    (∀ kvs, parseJson p = some (Json.obj kvs) →
      (cozo_run_query eng st id script p).1.buffer = dbNotFoundMsg) := by
  refine ⟨run_errored_of_not_open eng st id script p h, ?_, ?_⟩
  · unfold cozo_run_query
    rcases parseJson p with _ | j
    · rfl
    · cases j with
      | obj kvs => simp [h]
      | null => rfl
      | bool b => rfl
      | num n => rfl
      | str s => rfl
      | arr xs => rfl
  · intro kvs hkvs
    unfold cozo_run_query
    rw [hkvs]
    simp [h]

/-- Witness for C5 (amended) at concrete inputs: running against the
never-opened handle 99 of a fresh process with valid empty params fails
with the database-not-found message. -/
theorem run_query_unknown_handle_at_concrete :
    (cozo_run_query okEngine initState 99 "anything" "\x7b\x7d").1.errored = true ∧
    (cozo_run_query okEngine initState 99 "anything" "\x7b\x7d").1.buffer
        = dbNotFoundMsg :=
  ⟨(run_query_unknown_handle_failure okEngine initState 99 "anything" "\x7b\x7d"
      rfl).1,
   (run_query_unknown_handle_failure okEngine initState 99 "anything" "\x7b\x7d"
      rfl).2.2 [] rfl⟩

/-- C6: in every reachable registry state the open handles are pairwise
distinct, a fresh handle returned by open is never one of the
currently-open handles, and the boundary declares the handle as `int32_t`
in each of the three operations that mention it. -/
theorem registry_handle_uniqueness (eng : Engine) (st : RegistryState)
    (h : Reachable eng st) :
    (st.openDbs.map Prod.fst).Nodup ∧
    (∀ path hId, (cozo_open_db eng st path).dbId = some hId →
      hId ∉ st.openDbs.map Prod.fst) ∧
    cozo_close_db_decl.params.map CParam.ptype = [CType.int32] ∧
    cozo_open_db_decl.params.map CParam.ptype = [CType.ptrConstChar, CType.ptrInt32] ∧
    cozo_run_query_decl.params.map CParam.ptype
        = [CType.int32, CType.ptrConstChar, CType.ptrConstChar] := by
  obtain ⟨h0, hnd, hbd⟩ := reachable_regInv h
  refine ⟨hnd, ?_, rfl, rfl, rfl⟩
  intro path hId hsome hmem
  cases hinit : eng.init path with
  | error e =>
    rw [cozo_open_db, hinit] at hsome
    exact Option.noConfusion hsome
  | ok u =>
    cases u
    rw [cozo_open_db, hinit] at hsome
    have hId_eq : st.nextId = hId := Option.some.injEq _ _ ▸ hsome
    subst hId_eq
    obtain ⟨e, he, heq⟩ := List.mem_map.mp hmem
    have := (hbd e he).2
    omega

/-- Witness for C6: after one successful open the open-handle list has no
duplicates, and the next open would allocate handle 1, which is not among
the currently-open handles. -/
theorem registry_handle_uniqueness_at_concrete :
    (stOne.openDbs.map Prod.fst).Nodup ∧
    (1 : Int) ∉ stOne.openDbs.map Prod.fst :=
  ⟨(registry_handle_uniqueness okEngine stOne
      (Reachable.openStep "db" Reachable.init)).1,
   (registry_handle_uniqueness okEngine stOne
      (Reachable.openStep "db" Reachable.init)).2.1 "db2" 1 rfl⟩

/-- C7: `cozo_free_str` accepts the null pointer as a no-op, and releasing a
live buffer once removes it from the live set, so no second call is ever
needed; the declared signature takes one `char *` and returns nothing. -/
theorem free_str_null_noop_single_release (live : List Nat) (p : Nat) :
    cozo_free_str live none = live ∧
    p ∉ cozo_free_str live (some p) ∧
    cozo_free_str_decl.ret = CType.voidTy ∧
    cozo_free_str_decl.params.map CParam.ptype = [CType.ptrChar] := by
  refine ⟨rfl, ?_, rfl, rfl⟩
  intro hmem
  have h2 := (List.mem_filter.mp hmem).2
  simp at h2

/-- C8: a run never changes the registry structure: the state after any
`cozo_run_query` call equals the state before it, so every handle's open
status (the queried one included) is unchanged whether the run succeeded
or failed. -/
theorem run_query_preserves_registry (eng : Engine) (st : RegistryState)
    (id : Int) (script p : String) :
    (cozo_run_query eng st id script p).2 = st ∧
    ∀ h2 : Int, isOpen (cozo_run_query eng st id script p).2 h2 = isOpen st h2 := by
  refine ⟨run_query_state_fixed eng st id script p, fun h2 => ?_⟩
  rw [run_query_state_fixed]

/-- C9: a successful open returns the monotonic counter's current value as
the handle and increments the counter; the counter of a fresh process is 0,
so the first successful open writes handle 0. -/
theorem open_db_allocates_counter (eng : Engine) (st : RegistryState)
    (path : String) (h : (cozo_open_db eng st path).err = none) :
    (cozo_open_db eng st path).dbId = some st.nextId ∧
    (cozo_open_db eng st path).state.nextId = st.nextId + 1 ∧
    initState.nextId = 0 := by
  cases hinit : eng.init path with
  | error e =>
    rw [cozo_open_db, hinit] at h
    exact Option.noConfusion h
  | ok u =>
    cases u
    rw [cozo_open_db, hinit]
    exact ⟨rfl, rfl, rfl⟩

/-- Witness for C9: the first successful open from a fresh process returns
a null error and writes handle 0. -/
theorem open_db_allocates_counter_at_concrete :
    (cozo_open_db okEngine initState "db").err = none ∧
    (cozo_open_db okEngine initState "db").dbId = some 0 :=
  ⟨rfl, (open_db_allocates_counter okEngine initState "db" rfl).1⟩

/-- C10: `cozo_close_db` and `cozo_run_query` are total over the whole
signed handle domain (both are total functions of an arbitrary integer
handle), and in any reachable registry state a negative handle, or any
handle at or above the allocation counter — i.e. any garbage value never
issued by open — is not open, so close returns false and run returns an
errored outcome rather than any process-level fault. -/
theorem close_run_total_on_garbage (eng : Engine) (st : RegistryState)
    (h : Reachable eng st) (id : Int) (hid : id < 0 ∨ st.nextId ≤ id)
    (script p : String) :
    isOpen st id = false ∧
    (cozo_close_db st id).1 = false ∧
    (cozo_run_query eng st id script p).1.errored = true := by
  obtain ⟨h0, hnd, hbd⟩ := reachable_regInv h
  have hopen : isOpen st id = false := by
    rw [Bool.eq_false_iff]
    intro hc
    rw [isOpen_eq_true_iff] at hc
    obtain ⟨e, he, heq⟩ := hc
    have := hbd e he
    rcases hid with hneg | hge <;> omega
  refine ⟨hopen, ?_, run_errored_of_not_open eng st id script p hopen⟩
  unfold cozo_close_db
  simp [hopen]

/-- Witness for C10 at a concrete garbage handle: in a fresh process the
negative handle -7 is not open, close returns false on it, and run reports
an error. -/
theorem close_run_total_at_concrete :
    isOpen initState (-7) = false ∧
    (cozo_close_db initState (-7)).1 = false ∧
    (cozo_run_query okEngine initState (-7) "script" "\x7b\x7d").1.errored = true :=
  close_run_total_on_garbage okEngine initState Reachable.init (-7)
    (Or.inl (by decide)) "script" "\x7b\x7d"
